import Mathlib

/-!
Shallow embedding of the payment-gated MCP transport
(`X402StreamableHTTPServerTransport` in `src/server.ts`) and proofs about it.

The transport's mutable fields become an explicit state record (`TState`);
the external collaborators (viem's `getAddress`, the x402 library's
`processPriceToAtomicAmount`, `findMatchingPaymentRequirements`,
`exact.evm.decodePayment`, `settleResponseHeader`, and the facilitator's
`verify`/`settle`) become a record of abstract functions (`X402Lib`);
a thrown JavaScript exception becomes `Except.error`; calls to the
facilitator are recorded in an event trace so that "the facilitator is
never invoked" is expressible as an equation on the trace.
-/

namespace X402

/-- JSON-RPC request/response identifier: a string or a number. -/
inductive RId where
  | s (v : String)
  | n (v : Int)
deriving DecidableEq, Repr

/-- The `x402Settlement` object added to a successful result by `send`. -/
structure SettlementStamp where
  transactionHash : String
  settled : Bool
deriving DecidableEq, Repr

/-- The `result` member of a JSON-RPC response: an opaque base payload plus
the optional `x402Settlement` member the transport may add via spread. -/
structure CallResult where
  base : String
  x402Settlement : Option SettlementStamp := none
deriving DecidableEq, Repr

/-- The `params` of a JSON-RPC message: either tool-call shaped (an object
with a string `name`, as tested by `isToolCallParams`) or anything else. -/
inductive MsgParams where
  | toolParams (name : String) (args : String)
  | other (data : String)
deriving DecidableEq, Repr

/-- A JSON-RPC message. A `request` with `id = none` is a notification
(`isJSONRPCRequest` is false for it). -/
inductive JSONMsg where
  | request (id : Option RId) (method : String) (params : Option MsgParams)
  | response (id : RId) (result : CallResult)
  | error (id : RId) (errBody : String)
deriving DecidableEq, Repr

/-- A decoded x402 payment payload; the signed authorization is opaque. -/
structure PaymentPayload where
  x402Version : Nat
  scheme : String
  network : String
  payload : String
deriving DecidableEq, Repr

/-- One entry of the `accepts` array built by
`getPaymentRequirementsForTool`. -/
structure PaymentRequirements where
  scheme : String
  network : String
  maxAmountRequired : String
  resource : String
  description : String
  mimeType : String
  payTo : String
  maxTimeoutSeconds : Nat
  asset : String
  outputSchema : Option String
  extra : Option String
deriving DecidableEq, Repr

/-- Successful result of `processPriceToAtomicAmount`. -/
structure AtomicAmount where
  maxAmountRequired : String
  assetAddress : String
  eip712 : Option String
deriving DecidableEq, Repr

/-- Result of the facilitator's `verify`. -/
structure VerifyResponse where
  isValid : Bool
  invalidReason : Option String
deriving DecidableEq, Repr

/-- Result of the facilitator's `settle`. -/
structure SettleResponse where
  transaction : String
deriving DecidableEq, Repr

/-- `SettlementInfo` from `server.ts`. -/
structure SettlementInfo where
  transactionHash : Option String := none
  error : Option String := none
deriving DecidableEq, Repr

/-- `PaymentInfo` from `server.ts` (the unused `req` field is omitted:
it is stored but never read by the transport). -/
structure PaymentInfo where
  payment : PaymentPayload
  toolName : Option String := none
  toolPrice : Option String := none
  request : Option JSONMsg := none
deriving DecidableEq, Repr

/-- The external collaborators: viem's address checksummer and the x402
library and facilitator operations. `Except.error` models a throw. -/
structure X402Lib where
  processPriceToAtomicAmount : String → String → Except String AtomicAmount
  getAddress : String → String
  findMatchingPaymentRequirements :
    List PaymentRequirements → PaymentPayload → Option PaymentRequirements
  decodePayment : String → Except String PaymentPayload
  settleResponseHeaderFn : SettleResponse → String
  verify : PaymentPayload → PaymentRequirements → Except String VerifyResponse
  settle : PaymentPayload → PaymentRequirements → Except String SettleResponse

/-- Transport configuration (`payTo` and `toolPricing` constructor options). -/
structure Config where
  payTo : String
  toolPricing : List (String × String)

/-- Association-list lookup, modelling `Map.get` / JS object indexing. -/
def alookup {α β : Type} [DecidableEq α] : List (α × β) → α → Option β
  | [], _ => none
  | (k2, v) :: rest, k => if k2 = k then some v else alookup rest k

/-- Association-list insert-or-overwrite, modelling `Map.set` / JS
property assignment (existing key keeps its position, new key appended). -/
def aset {α β : Type} [DecidableEq α] : List (α × β) → α → β → List (α × β)
  | [], k, v => [(k, v)]
  | (k2, v2) :: rest, k, v =>
      if k2 = k then (k, v) :: rest else (k2, v2) :: aset rest k v

/-- Association-list removal of the first entry with the key,
modelling `Map.delete`. -/
def aremove {α β : Type} [DecidableEq α] : List (α × β) → α → List (α × β)
  | [], _ => []
  | (k2, v2) :: rest, k => if k2 = k then rest else (k2, v2) :: aremove rest k

/-- The transport's mutable fields. Outgoing HTTP response objects are
identified by a `Nat` (object identity of the `ServerResponse`). -/
structure TState where
  settlementMap : List (RId × SettlementInfo) := []
  requestPaymentMap : List (RId × PaymentInfo) := []
  pendingPayment : Option PaymentInfo := none
  currentResponse : Option Nat := none
  responsePaymentHeaders : List (Nat × String) := []
deriving DecidableEq, Repr

/-- The `x-payment` request header as Node delivers it: absent, a single
string, or an array of strings. -/
inductive HeaderV where
  | absent
  | single (v : String)
  | multi (vs : List String)
deriving DecidableEq, Repr

/-- A parsed POST body: a single JSON-RPC message or a batch array. -/
inductive BodyV where
  | one (m : JSONMsg)
  | arr (ms : List JSONMsg)
deriving DecidableEq, Repr

/-- `Array.isArray(parsedBody) ? parsedBody : [parsedBody]`. -/
def bodyMessages : BodyV → List JSONMsg
  | .one m => [m]
  | .arr ms => ms

/-- A call made to the facilitator. -/
inductive FacEvent where
  | verifyCall (p : PaymentPayload) (r : PaymentRequirements)
  | settleCall (p : PaymentPayload) (r : PaymentRequirements)
deriving DecidableEq, Repr

/-- The HTTP-level outcome of `handleRequest`: either delegation to
`super.handleRequest` with the given parsed body, or a 402 rejection with
the JSON body's `error` string and `accepts` array. -/
inductive HttpOutcome where
  | delegated (body : Option BodyV)
  | rejected402 (errMsg : String) (accepts : List PaymentRequirements)
deriving DecidableEq, Repr

/-- `getPaymentRequirementsForTool` from `server.ts`: build the `accepts`
array for a tool, throwing when the price cannot be converted. -/
def getPaymentRequirementsForTool (lib : X402Lib) (payTo toolName price : String) :
    Except String (List PaymentRequirements) :=
  match lib.processPriceToAtomicAmount price "base-sepolia" with
  | .error e => .error e
  | .ok a =>
      .ok [{ scheme := "exact"
             network := "base-sepolia"
             maxAmountRequired := a.maxAmountRequired
             resource := "mcp://tool/" ++ toolName
             description := "Payment for MCP tool: " ++ toolName
             mimeType := "application/json"
             payTo := lib.getAddress payTo
             maxTimeoutSeconds := 60
             asset := lib.getAddress a.assetAddress
             outputSchema := none
             extra := a.eip712 }]

/-- The `messages.find(...)` in `handleRequest`: the first message whose
method is `tools/call`, whose params carry a string `name`, and whose name
is present in the pricing table; returns that tool name. -/
def findPricedToolName (pricing : List (String × String)) :
    List JSONMsg → Option String
  | [] => none
  | .request _ method (some (.toolParams nm _)) :: rest =>
      if method = "tools/call" && (alookup pricing nm).isSome then some nm
      else findPricedToolName pricing rest
  | _ :: rest => findPricedToolName pricing rest

/-- `handleRequest` from `server.ts`. Returns the HTTP outcome, the updated
state, and the facilitator calls made; `Except.error` is an exception
escaping `handleRequest` (the requirement builder throwing). -/
def handleRequest (lib : X402Lib) (cfg : Config) (st : TState)
    (httpMethod : String) (xPayment : HeaderV) (parsedBody : Option BodyV)
    (resId : Nat) :
    Except String (HttpOutcome × TState × List FacEvent) :=
  let st1 : TState := { st with currentResponse := some resId }
  match parsedBody with
  | none => .ok (.delegated none, st1, [])
  | some body =>
    if httpMethod ≠ "POST" then .ok (.delegated (some body), st1, [])
    else
      match findPricedToolName cfg.toolPricing (bodyMessages body) with
      | none => .ok (.delegated (some body), st1, [])
      | some toolName =>
        let toolPrice := (alookup cfg.toolPricing toolName).getD ""
        match xPayment with
        | .absent =>
            match getPaymentRequirementsForTool lib cfg.payTo toolName toolPrice with
            | .error e => .error e
            | .ok reqs => .ok (.rejected402 "X-PAYMENT header is required" reqs, st1, [])
        | .multi _ =>
            match getPaymentRequirementsForTool lib cfg.payTo toolName toolPrice with
            | .error e => .error e
            | .ok reqs => .ok (.rejected402 "X-PAYMENT header is required" reqs, st1, [])
        | .single hv =>
          match lib.decodePayment hv with
          | .error _ =>
              match getPaymentRequirementsForTool lib cfg.payTo toolName toolPrice with
              | .error e => .error e
              | .ok reqs => .ok (.rejected402 "Invalid payment header" reqs, st1, [])
          | .ok p0 =>
            let payment : PaymentPayload := { p0 with x402Version := 1 }
            match getPaymentRequirementsForTool lib cfg.payTo toolName toolPrice with
            | .error e => .error e
            | .ok paymentRequirements =>
              match lib.findMatchingPaymentRequirements paymentRequirements payment with
              | none =>
                  .ok (.rejected402 "Unable to find matching payment requirements"
                        paymentRequirements, st1, [])
              | some sel =>
                match lib.verify payment sel with
                | .error eMsg =>
                    .ok (.rejected402 eMsg paymentRequirements, st1,
                         [.verifyCall payment sel])
                | .ok vr =>
                  if vr.isValid then
                    let newPending : PaymentInfo :=
                      { payment := payment
                        toolName := some toolName
                        toolPrice := some toolPrice
                        request := none }
                    .ok (.delegated (some body),
                         { st1 with pendingPayment := some newPending },
                         [.verifyCall payment sel])
                  else
                    .ok (.rejected402
                          (match vr.invalidReason with
                           | some r => if r = "" then "Payment verification failed" else r
                           | none => "Payment verification failed")
                          paymentRequirements, st1, [.verifyCall payment sel])

/-- The `onmessage` interceptor installed by `setupMessageInterception`:
a priced `tools/call` request with an id, while a pending payment exists,
maps that id to the pending payment (with the request attached). The
JavaScript truthiness test `if (toolPrice && this.pendingPayment)` makes an
empty price string behave as unpriced here. -/
def onmessage (pricing : List (String × String)) (st : TState) (m : JSONMsg) : TState :=
  match m with
  | .request (some mid) method (some (.toolParams nm _)) =>
    if method = "tools/call" then
      match alookup pricing nm, st.pendingPayment with
      | some price, some pp =>
          if price = "" then st
          else
            let pi2 : PaymentInfo := { pp with request := some m }
            { st with requestPaymentMap := aset st.requestPaymentMap mid pi2 }
      | _, _ => st
    else st
  | _ => st

/-- `settlePayment` from `server.ts`. Returns the `SettlementInfo`, the
facilitator calls made, and the header registration (response object id
and header value) performed on success. The whole body after the
error-response check is a try/catch returning `error := <message>`. -/
def settlePayment (lib : X402Lib) (cfg : Config) (currentResponse : Option Nat)
    (pi : PaymentInfo) (response : JSONMsg) :
    SettlementInfo × List FacEvent × Option (Nat × String) :=
  match response with
  | .error _ _ => ({ error := some "Response is an error" }, [], none)
  | _ =>
    match pi.request with
    | some (.request _ _ (some (.toolParams toolName _))) =>
      (match alookup cfg.toolPricing toolName with
       | none => ({ error := some ("No pricing found for tool: " ++ toolName) }, [], none)
       | some toolPrice =>
         if toolPrice = "" then
           ({ error := some ("No pricing found for tool: " ++ toolName) }, [], none)
         else
           match getPaymentRequirementsForTool lib cfg.payTo toolName toolPrice with
           | .error e => ({ error := some e }, [], none)
           | .ok reqs =>
             match lib.findMatchingPaymentRequirements reqs pi.payment with
             | none =>
                 ({ error := some "Unable to find matching payment requirements" }, [], none)
             | some sel =>
               match lib.settle pi.payment sel with
               | .error e => ({ error := some e }, [.settleCall pi.payment sel], none)
               | .ok sr =>
                   ({ transactionHash := some sr.transaction },
                    [.settleCall pi.payment sel],
                    currentResponse.map (fun rid => (rid, lib.settleResponseHeaderFn sr))))
    | _ => ({ error := some "Invalid request: missing tool name" }, [], none)

/-- The id of an outgoing message when it is a response or an error
(`isJSONRPCResponse(message) || isJSONRPCError(message)`). -/
def responseId : JSONMsg → Option RId
  | .response mid _ => some mid
  | .error mid _ => some mid
  | .request _ _ _ => none

/-- `send` from `server.ts`: intercept an outgoing response, settle at most
once per id, stamp `x402Settlement` on success, then forward. Returns the
(possibly stamped) message handed to `super.send`, the updated state, and
the facilitator calls made. -/
def send (lib : X402Lib) (cfg : Config) (st : TState) (m : JSONMsg) :
    JSONMsg × TState × List FacEvent :=
  match responseId m with
  | none => (m, st, [])
  | some mid =>
    match alookup st.requestPaymentMap mid with
    | none => (m, st, [])
    | some pi =>
      if (alookup st.settlementMap mid).isSome then (m, st, [])
      else
        let out := settlePayment lib cfg st.currentResponse pi m
        let newHeaders : List (Nat × String) :=
          match out.2.2 with
          | some (rid, h) => aset st.responsePaymentHeaders rid h
          | none => st.responsePaymentHeaders
        let st2 : TState :=
          { st with
            settlementMap := aset st.settlementMap mid out.1
            responsePaymentHeaders := newHeaders }
        let m2 : JSONMsg :=
          match m, out.1.transactionHash with
          | .response rid r, some tx =>
              if tx = "" then m
              else .response rid
                     { r with x402Settlement := some { transactionHash := tx, settled := true } }
          | _, _ => m
        (m2, st2, out.2.1)

/-- The `headers` argument of `res.writeHead`: absent, an object, or the
array form. -/
inductive HeadersArg where
  | obj (hs : List (String × String))
  | arr (hs : List String)
deriving DecidableEq, Repr

/-- The `writeHead` override installed by `handleRequest`: when an evidence
header is registered for this response object and the headers argument is a
non-array object, set `X-PAYMENT-RESPONSE` on it and discard the
registration; otherwise pass the arguments through untouched. Returns what
the original `writeHead` receives and the updated state. -/
def writeHead (st : TState) (resId : Nat) (status : Nat)
    (headers : Option HeadersArg) : (Nat × Option HeadersArg) × TState :=
  match alookup st.responsePaymentHeaders resId, headers with
  | some ph, some (.obj hs) =>
      ((status, some (.obj (aset hs "X-PAYMENT-RESPONSE" ph))),
       { st with responsePaymentHeaders := aremove st.responsePaymentHeaders resId })
  | _, _ => ((status, headers), st)

/-! ### Concrete collaborators for closed evaluations -/

/-- A concrete asset description for the concrete collaborators below. -/
def testAsset : AtomicAmount :=
  { maxAmountRequired := "1000", assetAddress := "0xassetaddr", eip712 := some "eip712data" }

/-- Concrete price conversion: rejects the empty price string. -/
def testProcessPrice (price : String) (_net : String) : Except String AtomicAmount :=
  if price = "" then .error "Invalid price" else .ok testAsset

/-- Concrete requirement matching: first requirement agreeing on scheme and
network. -/
def testFindMatching (reqs : List PaymentRequirements) (p : PaymentPayload) :
    Option PaymentRequirements :=
  reqs.find? (fun r => r.scheme == p.scheme && r.network == p.network)

/-- Concrete payment decoding: the header string becomes the payload. -/
def testDecode (s : String) : Except String PaymentPayload :=
  if s = "" then .error "decode failed"
  else .ok { x402Version := 0, scheme := "exact", network := "base-sepolia", payload := s }

/-- Concrete settle: succeeds with a transaction derived from the payload. -/
def testSettle (p : PaymentPayload) (_r : PaymentRequirements) :
    Except String SettleResponse :=
  .ok { transaction := "0xtx-" ++ p.payload }

/-- Concrete, deterministic external collaborators. -/
def testLib : X402Lib :=
  { processPriceToAtomicAmount := testProcessPrice
    getAddress := fun a => "CK:" ++ a
    findMatchingPaymentRequirements := testFindMatching
    decodePayment := testDecode
    settleResponseHeaderFn := fun sr => "settled:" ++ sr.transaction
    verify := fun _ _ => .ok { isValid := true, invalidReason := none }
    settle := testSettle }

/-- Concrete configuration: one priced tool. -/
def testCfg : Config := { payTo := "0xpayee", toolPricing := [("list", "$0.001")] }

/-- The requirement `getPaymentRequirementsForTool` builds for tool `list`
under `testLib`/`testCfg`. -/
def testReq : PaymentRequirements :=
  { scheme := "exact", network := "base-sepolia", maxAmountRequired := "1000",
    resource := "mcp://tool/list", description := "Payment for MCP tool: list",
    mimeType := "application/json", payTo := "CK:0xpayee", maxTimeoutSeconds := 60,
    asset := "CK:0xassetaddr", outputSchema := none, extra := some "eip712data" }

/-- A concrete priced tool-call message with id `n`. -/
def testCallMsg (n : Int) : JSONMsg :=
  JSONMsg.request (some (RId.n n)) "tools/call" (some (MsgParams.toolParams "list" "a"))

/-- A concrete decoded payment with the given opaque payload. -/
def testPayment (s : String) : PaymentPayload :=
  { x402Version := 1, scheme := "exact", network := "base-sepolia", payload := s }

/-- A concrete recorded payment for the `list` tool-call with id 1. -/
def testPaymentInfo : PaymentInfo :=
  { payment := testPayment "proofA", toolName := some "list",
    toolPrice := some "$0.001", request := some (testCallMsg 1) }

/-- A concrete state holding a verified payment for call id 1, not yet
settled. -/
def stWithCall : TState :=
  { requestPaymentMap := [(RId.n 1, testPaymentInfo)], currentResponse := some 7 }

/-- The settlement record stored when the response is an error. -/
def errorResponseSettlement : SettlementInfo :=
  { transactionHash := none, error := some "Response is an error" }

/-- The settlement record stored when settlement fails with an error. -/
def failedSettlement (e : String) : SettlementInfo :=
  { transactionHash := none, error := some e }

/-- A concrete library whose facilitator `settle` throws. -/
def testLibSettleFail : X402Lib :=
  { testLib with settle := fun _ _ => .error "settle exploded" }

/-- The state of a successful `handleRequest` run, for concrete scenarios. -/
def hrState (r : Except String (HttpOutcome × TState × List FacEvent)) : TState :=
  match r with
  | .ok (_, st, _) => st
  | .error _ => {}

/-- The facilitator events of a successful `handleRequest` run. -/
def hrEvents (r : Except String (HttpOutcome × TState × List FacEvent)) : List FacEvent :=
  match r with
  | .ok (_, _, evs) => evs
  | .error _ => []

/-- The payment inside a facilitator event. -/
def facEventPayment : FacEvent → PaymentPayload
  | .verifyCall p _ => p
  | .settleCall p _ => p

/-- The requirement `getPaymentRequirementsForTool` builds for a tool under
`testLib` with payee `0xpayee`. -/
def testReqFor (toolName : String) : PaymentRequirements :=
  { scheme := "exact", network := "base-sepolia", maxAmountRequired := "1000",
    resource := "mcp://tool/" ++ toolName,
    description := "Payment for MCP tool: " ++ toolName,
    mimeType := "application/json", payTo := "CK:0xpayee", maxTimeoutSeconds := 60,
    asset := "CK:0xassetaddr", outputSchema := none, extra := some "eip712data" }

/-- The payment record `onmessage` stores for an observed priced call. -/
def claimedInfo (pp : PaymentInfo) (m : JSONMsg) : PaymentInfo :=
  { pp with request := some m }

/-- The single requirement `getPaymentRequirementsForTool` builds once the
price has been converted. -/
def builtRequirement (lib : X402Lib) (payTo toolName : String) (a : AtomicAmount) :
    PaymentRequirements :=
  { scheme := "exact", network := "base-sepolia", maxAmountRequired := a.maxAmountRequired,
    resource := "mcp://tool/" ++ toolName, description := "Payment for MCP tool: " ++ toolName,
    mimeType := "application/json", payTo := lib.getAddress payTo, maxTimeoutSeconds := 60,
    asset := lib.getAddress a.assetAddress, outputSchema := none, extra := a.eip712 }

/-- A concrete state used for the C6 counterexample: an evidence value is
registered for response object 7. -/
def stHdrReg : TState := { responsePaymentHeaders := [(7, "EVIDENCE")] }

/-- Configuration with two priced tools, for the batch scenario. -/
def cfgBatch : Config :=
  { payTo := "0xpayee", toolPricing := [("toolA", "$0.01"), ("toolB", "$0.02")] }

/-- A priced call to `toolA` with id 1. -/
def msgA : JSONMsg :=
  JSONMsg.request (some (RId.n 1)) "tools/call" (some (MsgParams.toolParams "toolA" ""))

/-- A priced call to `toolB` with id 2. -/
def msgB : JSONMsg :=
  JSONMsg.request (some (RId.n 2)) "tools/call" (some (MsgParams.toolParams "toolB" ""))

/-- A batch body containing two priced calls. -/
def batchBody : BodyV := BodyV.arr [msgA, msgB]

/-- State after the batch request passed the HTTP gate. -/
def stB1 : TState :=
  hrState (handleRequest testLib cfgBatch {} "POST" (HeaderV.single "proofA") (some batchBody) 9)

/-- State after the RPC layer emitted both batched calls. -/
def stB2 : TState := onmessage cfgBatch.toolPricing (onmessage cfgBatch.toolPricing stB1 msgA) msgB

/-- State after the first batched call's response was sent. -/
def stB3 : TState := (send testLib cfgBatch stB2 (.response (RId.n 1) { base := "ok" })).2.1

/-! ### Claim theorems -/

/-- C1: for every POST whose parsed body names a priced tool call, if the
X-PAYMENT header is absent or multi-valued, `handleRequest` responds 402
with the required-header error and exactly the requirements computed for
that tool; the underlying transport is not invoked (the outcome is a
rejection, not a delegation) and no facilitator call is made. -/
theorem c1_missing_payment_header_402 (lib : X402Lib) (cfg : Config) (st : TState)
    (body : BodyV) (resId : Nat) (h : HeaderV) (toolName : String)
    (reqs : List PaymentRequirements)
    (hfind : findPricedToolName cfg.toolPricing (bodyMessages body) = some toolName)
    (hhdr : h = HeaderV.absent ∨ ∃ vs, h = HeaderV.multi vs)
    (hreqs : getPaymentRequirementsForTool lib cfg.payTo toolName
        ((alookup cfg.toolPricing toolName).getD "") = .ok reqs) :
    handleRequest lib cfg st "POST" h (some body) resId
      = .ok (.rejected402 "X-PAYMENT header is required" reqs,
             { st with currentResponse := some resId }, []) := by
  rcases hhdr with rfl | ⟨vs, rfl⟩ <;> simp [handleRequest, hfind, hreqs]

/-- C1 witness: the theorem applied at a concrete request. -/
theorem c1_missing_payment_header_402_witness :
    handleRequest testLib testCfg {} "POST" HeaderV.absent
        (some (BodyV.one (testCallMsg 1))) 7
      = .ok (.rejected402 "X-PAYMENT header is required" [testReq],
             ({ currentResponse := some 7 } : TState), []) :=
  c1_missing_payment_header_402 testLib testCfg {} (BodyV.one (testCallMsg 1)) 7
    HeaderV.absent "list" [testReq] rfl (Or.inl rfl) rfl

/-- C4: for every POST whose parsed body contains no priced tool call,
`handleRequest` delegates to the underlying transport with the parsed body
unchanged and makes no facilitator call. -/
theorem c4_unpriced_passthrough (lib : X402Lib) (cfg : Config) (st : TState)
    (body : BodyV) (resId : Nat) (h : HeaderV)
    (hfind : findPricedToolName cfg.toolPricing (bodyMessages body) = none) :
    handleRequest lib cfg st "POST" h (some body) resId
      = .ok (.delegated (some body), { st with currentResponse := some resId }, []) := by
  simp [handleRequest, hfind]

/-- C4 witness: the theorem applied at a concrete non-tool-call body. -/
theorem c4_unpriced_passthrough_witness :
    handleRequest testLib testCfg {} "POST" HeaderV.absent
        (some (BodyV.one (JSONMsg.request (some (RId.n 2)) "tools/list" none))) 3
      = .ok (.delegated (some (BodyV.one (JSONMsg.request (some (RId.n 2)) "tools/list" none))),
             ({ currentResponse := some 3 } : TState), []) :=
  c4_unpriced_passthrough testLib testCfg {}
    (BodyV.one (JSONMsg.request (some (RId.n 2)) "tools/list" none)) 3 HeaderV.absent rfl

/-- C2: when the outgoing message for a callId with a recorded verified
payment is an error response, `send` performs no facilitator call (the
event trace is empty, so `settle` is never invoked for that callId),
records only an error for that callId, and forwards the error response
unmodified. -/
theorem c2_error_response_never_settled (lib : X402Lib) (cfg : Config) (st : TState)
    (mid : RId) (errBody : String) (p : PaymentInfo)
    (hpi : alookup st.requestPaymentMap mid = some p)
    (hns : alookup st.settlementMap mid = none) :
    send lib cfg st (.error mid errBody)
      = (.error mid errBody,
         { st with settlementMap := aset st.settlementMap mid errorResponseSettlement },
         []) := by
  simp [send, responseId, hpi, hns, settlePayment, errorResponseSettlement]

/-- C2 witness: the theorem applied at a concrete error response. -/
theorem c2_error_response_never_settled_witness :
    send testLib testCfg stWithCall (.error (RId.n 1) "boom")
      = (.error (RId.n 1) "boom",
         { stWithCall with
             settlementMap := aset stWithCall.settlementMap (RId.n 1) errorResponseSettlement },
         []) :=
  c2_error_response_never_settled testLib testCfg stWithCall (RId.n 1) "boom"
    testPaymentInfo rfl rfl

/-- C3: when `send` observes a response (or error) whose id already has a
recorded settlement outcome, it makes no facilitator call, changes no
state, forwards the message as is, and the stored settlement outcome for
that id remains the first one recorded. -/
theorem c3_settled_id_not_resettled (lib : X402Lib) (cfg : Config) (st : TState)
    (m : JSONMsg) (mid : RId) (si : SettlementInfo)
    (hid : responseId m = some mid)
    (hsettled : alookup st.settlementMap mid = some si) :
    send lib cfg st m = (m, st, []) ∧
    alookup (send lib cfg st m).2.1.settlementMap mid = some si := by
  have hmain : send lib cfg st m = (m, st, []) := by
    cases hrp : alookup st.requestPaymentMap mid with
    | none => simp [send, hid, hrp]
    | some p => simp [send, hid, hrp, hsettled]
  exact ⟨hmain, by rw [hmain]; exact hsettled⟩

/-- C3 witness: the theorem applied at a concrete already-settled id. -/
theorem c3_settled_id_not_resettled_witness :
    send testLib testCfg
        ({ stWithCall with settlementMap := [(RId.n 1, errorResponseSettlement)] })
        (.response (RId.n 1) { base := "ok" })
      = (.response (RId.n 1) { base := "ok" },
         { stWithCall with settlementMap := [(RId.n 1, errorResponseSettlement)] }, []) :=
  (c3_settled_id_not_resettled testLib testCfg
    ({ stWithCall with settlementMap := [(RId.n 1, errorResponseSettlement)] })
    (.response (RId.n 1) { base := "ok" }) (RId.n 1) errorResponseSettlement
    rfl rfl).1

/-- Helper: `settlePayment` registers an evidence header only when it also
returns a transaction hash. -/
theorem settlePayment_header_cases (lib : X402Lib) (cfg : Config) (cur : Option Nat)
    (p : PaymentInfo) (m : JSONMsg) :
    (settlePayment lib cfg cur p m).2.2 = none ∨
    ∃ tx, (settlePayment lib cfg cur p m).1.transactionHash = some tx := by
  unfold settlePayment
  repeat' split
  all_goals simp

/-- C5: when the settlement attempt for a successful response fails (the
stored outcome has no transaction hash, only an error — covering a
facilitator throw and a failed requirement match), `send` records that
error for the callId, registers no evidence header, and still forwards the
response with its result payload unmodified. -/
theorem c5_settlement_failure_preserves_result (lib : X402Lib) (cfg : Config)
    (st : TState) (mid : RId) (r : CallResult) (p : PaymentInfo) (e : String)
    (hpi : alookup st.requestPaymentMap mid = some p)
    (hns : alookup st.settlementMap mid = none)
    (hfail : (settlePayment lib cfg st.currentResponse p (.response mid r)).1
        = failedSettlement e) :
    send lib cfg st (.response mid r)
      = (.response mid r,
         { st with settlementMap := aset st.settlementMap mid (failedSettlement e) },
         (settlePayment lib cfg st.currentResponse p (.response mid r)).2.1) := by
  have hhdr : (settlePayment lib cfg st.currentResponse p (.response mid r)).2.2 = none := by
    rcases settlePayment_header_cases lib cfg st.currentResponse p (.response mid r) with
      hh | ⟨tx, htx⟩
    · exact hh
    · rw [hfail] at htx
      simp [failedSettlement] at htx
  simp [send, responseId, hpi, hns, hfail, hhdr, failedSettlement]

/-- C5 witness: the theorem applied with a concrete throwing facilitator. -/
theorem c5_settlement_failure_preserves_result_witness :
    send testLibSettleFail testCfg stWithCall (.response (RId.n 1) { base := "ok" })
      = (.response (RId.n 1) { base := "ok" },
         { stWithCall with
             settlementMap := aset stWithCall.settlementMap (RId.n 1) (failedSettlement "settle exploded") },
         (settlePayment testLibSettleFail testCfg stWithCall.currentResponse testPaymentInfo
            (.response (RId.n 1) { base := "ok" })).2.1) :=
  c5_settlement_failure_preserves_result testLibSettleFail testCfg stWithCall
    (RId.n 1) { base := "ok" } testPaymentInfo "settle exploded" rfl rfl rfl

/-- Helper: looking up a key just set finds the value set. -/
theorem alookup_aset_self {α β : Type} [DecidableEq α] (m : List (α × β)) (k : α) (v : β) :
    alookup (aset m k v) k = some v := by
  induction m with
  | nil => simp [aset, alookup]
  | cons hd tl ih =>
      obtain ⟨k2, v2⟩ := hd
      by_cases h : k2 = k <;> simp [aset, alookup, h, ih]

/-- Helper: removing a freshly set key restores the original list. -/
theorem aremove_aset_fresh {α β : Type} [DecidableEq α] (m : List (α × β)) (k : α) (v : β)
    (h : alookup m k = none) : aremove (aset m k v) k = m := by
  induction m with
  | nil => simp [aset, aremove]
  | cons hd tl ih =>
      obtain ⟨k2, v2⟩ := hd
      by_cases hk : k2 = k
      · simp [alookup, hk] at h
      · simp [alookup, hk] at h
        simp [aset, aremove, hk, ih h]

/-- C6 amended: when settlement succeeds, `send` stamps the response result
with `x402Settlement` (transaction hash and `settled := true`) and
registers the evidence header value for the current response object; a
subsequent `writeHead` on that object passing a non-array headers object
gets the evidence header merged in and the registration discarded, so any
later `writeHead` on the same object passes its arguments through
unchanged — at most one injection per response object. -/
theorem c6_success_stamps_and_injects_header (lib : X402Lib) (cfg : Config)
    (st : TState) (mid : RId) (r : CallResult) (p : PaymentInfo) (tx : String)
    (evs : List FacEvent) (rid : Nat) (hv : String) (hs : List (String × String))
    (status status2 : Nat) (hdrs2 : Option HeadersArg)
    (hpi : alookup st.requestPaymentMap mid = some p)
    (hns : alookup st.settlementMap mid = none)
    (hfresh : alookup st.responsePaymentHeaders rid = none)
    (hsp : settlePayment lib cfg st.currentResponse p (.response mid r)
        = ({ transactionHash := some tx, error := none }, evs, some (rid, hv)))
    (htx : tx ≠ "") :
    (send lib cfg st (.response mid r)).1
      = .response mid { r with x402Settlement := some { transactionHash := tx, settled := true } } ∧
    alookup (send lib cfg st (.response mid r)).2.1.responsePaymentHeaders rid = some hv ∧
    writeHead (send lib cfg st (.response mid r)).2.1 rid status (some (.obj hs))
      = ((status, some (.obj (aset hs "X-PAYMENT-RESPONSE" hv))),
         { (send lib cfg st (.response mid r)).2.1 with responsePaymentHeaders := st.responsePaymentHeaders }) ∧
    writeHead { (send lib cfg st (.response mid r)).2.1 with responsePaymentHeaders := st.responsePaymentHeaders }
        rid status2 hdrs2
      = ((status2, hdrs2),
         { (send lib cfg st (.response mid r)).2.1 with responsePaymentHeaders := st.responsePaymentHeaders }) := by
  have hsend : (send lib cfg st (.response mid r)).2.1.responsePaymentHeaders
      = aset st.responsePaymentHeaders rid hv := by
    simp [send, responseId, hpi, hns, hsp]
  refine ⟨?_, ?_, ?_, ?_⟩
  · simp [send, responseId, hpi, hns, hsp, htx]
  · rw [hsend]
    exact alookup_aset_self _ _ _
  · have hlook : alookup (send lib cfg st (.response mid r)).2.1.responsePaymentHeaders rid = some hv := by
      rw [hsend]; exact alookup_aset_self _ _ _
    have hrem : aremove (send lib cfg st (.response mid r)).2.1.responsePaymentHeaders rid
        = st.responsePaymentHeaders := by
      rw [hsend]; exact aremove_aset_fresh _ _ _ hfresh
    simp [writeHead, hlook, hrem]
  · cases hdrs2 with
    | none => simp [writeHead, hfresh]
    | some ha =>
        cases ha with
        | obj hs2 => simp [writeHead, hfresh]
        | arr hs2 => simp [writeHead, hfresh]

/-- C6 witness: the amended theorem applied at a concrete successful
settlement. -/
theorem c6_success_stamps_and_injects_header_witness :
    (send testLib testCfg stWithCall (.response (RId.n 1) { base := "ok" })).1
      = .response (RId.n 1)
          { base := "ok",
            x402Settlement := some { transactionHash := "0xtx-proofA", settled := true } } ∧
    alookup (send testLib testCfg stWithCall (.response (RId.n 1) { base := "ok" })).2.1.responsePaymentHeaders 7
      = some "settled:0xtx-proofA" ∧
    writeHead (send testLib testCfg stWithCall (.response (RId.n 1) { base := "ok" })).2.1 7 200
        (some (.obj [("Content-Type", "application/json")]))
      = ((200, some (.obj (aset [("Content-Type", "application/json")] "X-PAYMENT-RESPONSE" "settled:0xtx-proofA"))),
         { (send testLib testCfg stWithCall (.response (RId.n 1) { base := "ok" })).2.1 with
             responsePaymentHeaders := stWithCall.responsePaymentHeaders }) ∧
    writeHead
        { (send testLib testCfg stWithCall (.response (RId.n 1) { base := "ok" })).2.1 with
            responsePaymentHeaders := stWithCall.responsePaymentHeaders } 7 201 none
      = ((201, none),
         { (send testLib testCfg stWithCall (.response (RId.n 1) { base := "ok" })).2.1 with
             responsePaymentHeaders := stWithCall.responsePaymentHeaders }) :=
  c6_success_stamps_and_injects_header testLib testCfg stWithCall (RId.n 1)
    { base := "ok" } testPaymentInfo "0xtx-proofA"
    [FacEvent.settleCall (testPayment "proofA") (testReqFor "list")] 7 "settled:0xtx-proofA"
    [("Content-Type", "application/json")] 200 201 none rfl rfl rfl rfl (by decide)

/-- C6 counterexample: the claim as stated fails — with an evidence value
registered for response object 7, a `writeHead` call whose headers are in
the array form writes those headers unchanged (no evidence merged) and the
registration is not discarded. -/
theorem c6_counterexample :
    writeHead stHdrReg 7 200 (some (HeadersArg.arr ["Content-Type: text/plain"]))
      = ((200, some (HeadersArg.arr ["Content-Type: text/plain"])), stHdrReg) ∧
    alookup stHdrReg.responsePaymentHeaders 7 = some "EVIDENCE" :=
  ⟨rfl, rfl⟩

/-- C7: the single shared `pendingPayment` slot makes two interleaved
verified requests cross-talk — after request 2's `handleRequest` overwrote
the slot, call id 1 is recorded against request 2's proof, and its
settlement calls the facilitator with that other proof. -/
theorem c7_shared_slot_cross_talk :
    (alookup (onmessage testCfg.toolPricing
        (onmessage testCfg.toolPricing
          (hrState (handleRequest testLib testCfg
            (hrState (handleRequest testLib testCfg {} "POST" (HeaderV.single "proofA")
              (some (BodyV.one (testCallMsg 1))) 7))
            "POST" (HeaderV.single "proofB") (some (BodyV.one (testCallMsg 2))) 8))
          (testCallMsg 1)) (testCallMsg 2)).requestPaymentMap (RId.n 1)).map
        (fun q => q.payment.payload) = some "proofB" ∧
    ((send testLib testCfg
        (onmessage testCfg.toolPricing
          (onmessage testCfg.toolPricing
            (hrState (handleRequest testLib testCfg
              (hrState (handleRequest testLib testCfg {} "POST" (HeaderV.single "proofA")
                (some (BodyV.one (testCallMsg 1))) 7))
              "POST" (HeaderV.single "proofB") (some (BodyV.one (testCallMsg 2))) 8))
            (testCallMsg 1)) (testCallMsg 2))
        (.response (RId.n 1) { base := "ok" })).2.2).map facEventPayment
      = [testPayment "proofB"] ∧
    testPayment "proofA" ≠ testPayment "proofB" := by
  refine ⟨?_, ?_, ?_⟩ <;> decide

/-- C8: the requirement builder either throws (exactly when the price
string cannot be converted to an atomic amount) or returns exactly one
requirement whose scheme is `exact`, whose payee is the checksummed
configured address, whose timeout is 60 seconds, and whose resource
identifies the tool. -/
theorem c8_requirement_builder_shape (lib : X402Lib) (payTo toolName price : String) :
    (∃ e, lib.processPriceToAtomicAmount price "base-sepolia" = .error e ∧
          getPaymentRequirementsForTool lib payTo toolName price = .error e) ∨
    (∃ req, getPaymentRequirementsForTool lib payTo toolName price = .ok [req] ∧
            req.scheme = "exact" ∧ req.payTo = lib.getAddress payTo ∧
            req.maxTimeoutSeconds = 60 ∧ req.resource = "mcp://tool/" ++ toolName) := by
  cases h : lib.processPriceToAtomicAmount price "base-sepolia" with
  | error e =>
      refine Or.inl ⟨e, rfl, ?_⟩
      unfold getPaymentRequirementsForTool
      rw [h]
  | ok a =>
      refine Or.inr ⟨builtRequirement lib payTo toolName a, ?_, rfl, rfl, rfl, rfl⟩
      unfold getPaymentRequirementsForTool builtRequirement
      rw [h]

/-- C9 counterexample: the claim as stated fails — after a complete
request/response cycle (gate passed, call observed, response sent and
settled), the store still holds both the callId-keyed payment record and
the pending payment. -/
theorem c9_counterexample :
    (alookup ((send testLib testCfg
        (onmessage testCfg.toolPricing
          (hrState (handleRequest testLib testCfg {} "POST" (HeaderV.single "proofA")
            (some (BodyV.one (testCallMsg 1))) 7))
          (testCallMsg 1))
        (.response (RId.n 1) { base := "ok" })).2.1).requestPaymentMap (RId.n 1)).isSome = true ∧
    ((send testLib testCfg
        (onmessage testCfg.toolPricing
          (hrState (handleRequest testLib testCfg {} "POST" (HeaderV.single "proofA")
            (some (BodyV.one (testCallMsg 1))) 7))
          (testCallMsg 1))
        (.response (RId.n 1) { base := "ok" })).2.1).pendingPayment.isSome = true := by
  refine ⟨?_, ?_⟩ <;> decide

/-- C9 amended: the correlation entries are retained, not released —
sending the matching response leaves the callId-keyed payment record and
the pending payment untouched (only the settlement ledger and the header
registrations change), so the entries persist beyond the cycle. -/
theorem c9_amended_entries_retained (lib : X402Lib) (cfg : Config) (st : TState)
    (m : JSONMsg) :
    (send lib cfg st m).2.1.requestPaymentMap = st.requestPaymentMap ∧
    (send lib cfg st m).2.1.pendingPayment = st.pendingPayment := by
  unfold send
  repeat' split
  all_goals simp

/-- C10: a verified pending payment is never cleared — observing a message
leaves `pendingPayment` unchanged; every observed priced `tools/call` with
an id is mapped to that same single stored payment; and in a batch with two
priced calls the gate demands verification only once (for the first priced
call found) while both calls are mapped to that one payment and each
response triggers its own settlement attempt against it. -/
theorem c10_pending_payment_reused (pricingU : List (String × String)) (stU : TState)
    (mU : JSONMsg) (nm args : String) (mid : RId) (price : String)
    (pp : PaymentInfo) (m2 : JSONMsg)
    (hpr : alookup pricingU nm = some price) (hpz : price ≠ "")
    (hpp : stU.pendingPayment = some pp)
    (hm2 : m2 = JSONMsg.request (some mid) "tools/call" (some (MsgParams.toolParams nm args))) :
    (onmessage pricingU stU mU).pendingPayment = stU.pendingPayment ∧
    alookup (onmessage pricingU stU m2).requestPaymentMap mid = some (claimedInfo pp m2) ∧
    hrEvents (handleRequest testLib cfgBatch {} "POST" (HeaderV.single "proofA") (some batchBody) 9)
      = [FacEvent.verifyCall (testPayment "proofA") (testReqFor "toolA")] ∧
    (alookup stB2.requestPaymentMap (RId.n 1)).map (fun q => q.payment.payload) = some "proofA" ∧
    (alookup stB2.requestPaymentMap (RId.n 2)).map (fun q => q.payment.payload) = some "proofA" ∧
    ((send testLib cfgBatch stB2 (.response (RId.n 1) { base := "ok" })).2.2).map facEventPayment
      = [testPayment "proofA"] ∧
    ((send testLib cfgBatch stB3 (.response (RId.n 2) { base := "ok2" })).2.2).map facEventPayment
      = [testPayment "proofA"] := by
  refine ⟨?_, ?_, ?_, ?_, ?_, ?_, ?_⟩
  · unfold onmessage
    repeat' split
    all_goals simp
  · subst hm2
    simp [onmessage, hpr, hpz, hpp, claimedInfo, alookup_aset_self]
  · decide
  · decide
  · decide
  · decide
  · decide

/-- C10 witness: the theorem applied at a concrete priced call and pending
payment. -/
theorem c10_pending_payment_reused_witness :
    (onmessage [("list", "$0.001")] ({ pendingPayment := some testPaymentInfo } : TState)
        (testCallMsg 6)).pendingPayment
      = ({ pendingPayment := some testPaymentInfo } : TState).pendingPayment ∧
    alookup (onmessage [("list", "$0.001")] ({ pendingPayment := some testPaymentInfo } : TState)
        (testCallMsg 5)).requestPaymentMap (RId.n 5)
      = some (claimedInfo testPaymentInfo (testCallMsg 5)) ∧
    hrEvents (handleRequest testLib cfgBatch {} "POST" (HeaderV.single "proofA") (some batchBody) 9)
      = [FacEvent.verifyCall (testPayment "proofA") (testReqFor "toolA")] ∧
    (alookup stB2.requestPaymentMap (RId.n 1)).map (fun q => q.payment.payload) = some "proofA" ∧
    (alookup stB2.requestPaymentMap (RId.n 2)).map (fun q => q.payment.payload) = some "proofA" ∧
    ((send testLib cfgBatch stB2 (.response (RId.n 1) { base := "ok" })).2.2).map facEventPayment
      = [testPayment "proofA"] ∧
    ((send testLib cfgBatch stB3 (.response (RId.n 2) { base := "ok2" })).2.2).map facEventPayment
      = [testPayment "proofA"] :=
  c10_pending_payment_reused [("list", "$0.001")]
    ({ pendingPayment := some testPaymentInfo } : TState) (testCallMsg 6) "list" "a"
    (RId.n 5) "$0.001" testPaymentInfo (testCallMsg 5) rfl (by decide) rfl rfl

end X402
